import Mathlib

set_option autoImplicit false

/-! Verification development for `archivebox/main.py` of pirate/pocket-archive-stream.
The Python functions of main.py are shallowly embedded as pure Lean functions over an
explicit `ArchiveState`; raised Python exceptions are modelled as `Except` errors
carrying the exception kind. External collaborators imported by main.py (the
`.index`, `.parsers`, `.extractors`, `.config` and `.search` modules) are modelled
from the specification where a claim depends on them; every such definition carries a
doc comment starting with `Modelled from the spec:`. -/

namespace ArchiveBoxMain

/-- A Snapshot record as used by main.py: a canonical `url` and a string-encoded
fixed-point `timestamp` that also serves as the folder key of the snapshot. -/
structure Snapshot where
  url : String
  timestamp : String
  deriving Repr, DecidableEq

/-- The Python exceptions raised by the embedded code paths of main.py. -/
inductive PyError where
  /-- `raise SystemExit(code)` -/
  | systemExit (code : Nat)
  /-- a failing `assert cond, msg` -/
  | assertionError (msg : String)
  /-- `raise ValueError(msg)` -/
  | valueError (msg : String)
  /-- reading a name that is bound nowhere in the scope chain -/
  | nameError (n : String)
  deriving Repr, DecidableEq

/-- The observable world of main.py: the SQL main index (the Index Store), the
timestamp-named folders of the archive root (the Folder Store), the write-ahead
source files under sources/, the log of urls for which extractor methods were
invoked, the snapshot detail files written, and the search index contents. -/
structure ArchiveState where
  index : List Snapshot
  folders : List String
  sources : List String
  archived : List String
  detailsWritten : List String
  searchIndexed : List String
  deriving Repr, DecidableEq

/-- The empty world, used to instantiate closed statements. -/
def st0 : ArchiveState :=
  { index := [], folders := [], sources := [], archived := [],
    detailsWritten := [], searchIndexed := [] }

/-- Python truthiness of an `Optional[str]`: `None` and the empty string are falsy. -/
def pyTruthyStr : Option String → Bool
  | none => false
  | some s => !s.isEmpty

/-- Python truthiness of an `Optional` list or queryset: `None` and empty are falsy. -/
def pyTruthyList {α : Type} : Option (List α) → Bool
  | none => false
  | some l => !l.isEmpty

/-- Python truthiness of the `Optional[float]` resume threshold, restricted to whole
values: `None` and `0.0` are falsy. -/
def pyTruthyFloat : Option Int → Bool
  | none => false
  | some r => r != 0

/-- Python `str()` of a whole-valued float: `str(100.0)` is `"100.0"`. The model
restricts the float parameters of main.py to whole values. -/
def pyFloatStr (r : Int) : String := toString r ++ ".0"

/-- Lexicographic comparison of two code point lists: the order Python uses to
compare strings. -/
def charListLt : List Char → List Char → Bool
  | [], [] => false
  | [], _ :: _ => true
  | _ :: _, [] => false
  | a :: as, b :: bs => if a < b then true else if b < a then false else charListLt as bs

/-- Python string comparison `a < b`: lexicographic by code point. -/
def pyStrLt (a b : String) : Bool := charListLt a.data b.data

/-- Python string comparison `a >= b`: the negation of the strict order. -/
def pyStrGe (a b : String) : Bool := !(pyStrLt a b)

/-- A Python dict with string keys: an insertion-ordered association list. -/
abbrev PyDict (α : Type) : Type := List (String × α)

/-- Keys of a Python dict, in insertion order. -/
def pyDictKeys {α : Type} (d : PyDict α) : List String := d.map Prod.fst

/-- Insertion of one key-value pair into a Python dict: an existing key keeps its
position and takes the new value, a new key is appended at the end. -/
def pyDictInsert {α : Type} (d : PyDict α) (kv : String × α) : PyDict α :=
  if d.any (fun p => p.1 == kv.1) then
    d.map (fun p => if p.1 == kv.1 then (p.1, kv.2) else p)
  else d ++ [kv]

/-- Python dict merge: insert the items of `b` into `a`, in order. -/
def pyDictMerge {α : Type} (a b : PyDict α) : PyDict α := b.foldl pyDictInsert a

/-- Modelled from the spec: `snapshot_filter` (imported from `.index`, not under
src/) keeps the snapshots matching the filter patterns; the spec describes exact
`url` matching for the default `exact` filter type. No claim exercises this
function: every theorem below instantiates `filter_patterns` with `none`. -/
def snapshot_filter (snapshots : List Snapshot) (patterns : List String)
    (filter_type : Option String) : List Snapshot :=
  let _ := filter_type
  snapshots.filter (fun s => patterns.contains s.url)

/-- Embedding of `list_snapshots` (main.py lines 806-827). The `timestamp` column is
a string field, and Django prepares a non-string comparison value with `str()`, so
`after` and `before` are modelled as the prepared comparison strings and the
`timestamp__lt` / `timestamp__gt` lookups compare lexicographically. The truthiness
check on line 816 makes an empty queryset argument fall back to the main index,
while the `after` and `before` checks on lines 821 and 823 test for `None`. -/
def list_snapshots (snapshots : Option (List Snapshot))
    (filter_patterns : Option (List String)) (filter_type : Option String)
    (after before : Option String) (mainIndex : List Snapshot) : List Snapshot :=
  let all0 := if pyTruthyList snapshots then snapshots.getD [] else mainIndex
  let all1 := match after with
    | some a => all0.filter (fun s => pyStrLt s.timestamp a)
    | none => all0
  let all2 := match before with
    | some b => all1.filter (fun s => pyStrLt b s.timestamp)
    | none => all1
  if pyTruthyList filter_patterns then
    snapshot_filter all2 (filter_patterns.getD []) filter_type
  else all2

/-- The ten folder-status classifier functions imported from `.index` (external
collaborators of main.py, not under src/): each maps the snapshot collection to a
dict from folder key to an optional representative snapshot. `list_folders` only
dispatches on their names, so they are kept abstract here. -/
structure Classifiers where
  get_indexed_folders : List Snapshot → PyDict (Option Snapshot)
  get_archived_folders : List Snapshot → PyDict (Option Snapshot)
  get_unarchived_folders : List Snapshot → PyDict (Option Snapshot)
  get_present_folders : List Snapshot → PyDict (Option Snapshot)
  get_valid_folders : List Snapshot → PyDict (Option Snapshot)
  get_invalid_folders : List Snapshot → PyDict (Option Snapshot)
  get_duplicate_folders : List Snapshot → PyDict (Option Snapshot)
  get_orphaned_folders : List Snapshot → PyDict (Option Snapshot)
  get_corrupted_folders : List Snapshot → PyDict (Option Snapshot)
  get_unrecognized_folders : List Snapshot → PyDict (Option Snapshot)

/-- The `STATUS_FUNCTIONS` dict of `list_folders` (main.py lines 836-847). -/
def STATUS_FUNCTIONS (C : Classifiers) :
    List (String × (List Snapshot → PyDict (Option Snapshot))) :=
  [("indexed", C.get_indexed_folders),
   ("archived", C.get_archived_folders),
   ("unarchived", C.get_unarchived_folders),
   ("present", C.get_present_folders),
   ("valid", C.get_valid_folders),
   ("invalid", C.get_invalid_folders),
   ("duplicate", C.get_duplicate_folders),
   ("orphaned", C.get_orphaned_folders),
   ("corrupted", C.get_corrupted_folders),
   ("unrecognized", C.get_unrecognized_folders)]

/-- The key list of `STATUS_FUNCTIONS`. -/
def statusKeys : List String :=
  ["indexed", "archived", "unarchived", "present", "valid", "invalid",
   "duplicate", "orphaned", "corrupted", "unrecognized"]

/-- Embedding of `list_folders` (main.py lines 829-852): a dict lookup of the status
string dispatches to the matching classifier; a missing key (including the `None`
that `update` passes through on line 716) raises `KeyError`, which line 852 turns
into `ValueError`. -/
def list_folders (C : Classifiers) (snapshots : List Snapshot)
    (status : Option String) : Except PyError (PyDict (Option Snapshot)) :=
  match status with
  | none => .error (.valueError "Status not recognized.")
  | some s =>
    match (STATUS_FUNCTIONS C).lookup s with
    | some f => .ok (f snapshots)
    | none => .error (.valueError "Status not recognized.")

/-- Modelled from the spec: `parse_snapshots_from_source` (imported from `.index`,
not under src/) parses a saved source file into candidate snapshots, one per
discovered URL; the saved file is modelled by its list of lines, one URL each. The
candidate timestamp is irrelevant to `add`, which keeps only the url (line 582). -/
def parse_snapshots_from_source (sourceLines : List String) : List Snapshot :=
  sourceLines.map (fun u => { url := u, timestamp := "" })

/-- Modelled from the spec: `filter_new_urls` (imported from `.index`, not under
src/) deduplicates the imported snapshots against the existing Index Store by exact
`url` match; only snapshots whose url is not already present remain. -/
def filter_new_urls (index : List Snapshot) (imported : List Snapshot) : List Snapshot :=
  imported.filter (fun s => decide (s.url ∉ index.map Snapshot.url))

/-- Modelled from the spec: `write_main_index` (imported from `.index`, not under
src/) inserts the given new snapshots into the Index Store. -/
def write_main_index (st : ArchiveState) (snapshots : List Snapshot) : ArchiveState :=
  { st with index := st.index ++ snapshots }

/-- Modelled from the spec: `archive_snapshots` (the Archiving Orchestrator,
imported from `.extractors`, not under src/) runs the extractor methods for each
given snapshot; the model records the urls for which extractors were invoked. It
mutates extractor results and folder contents but never Index membership. -/
def archive_snapshots (st : ArchiveState) (snapshots : List Snapshot)
    (overwrite : Bool) : ArchiveState :=
  let _ := overwrite
  { st with archived := st.archived ++ snapshots.map Snapshot.url }

/-- Embedding of `add` (main.py lines 538-604) for list input and `init=False` (the
`init` flag re-enters the CLI layer, an external collaborator the spec excludes;
`check_data_folder` and `check_dependencies` are external config collaborators
assumed to pass). `crawl u` is the list of URLs discovered by downloading and
re-parsing url `u` during depth-1 crawl expansion. The `assert` on line 550 comes
before any other work of the function. -/
def add (urls : List String) (depth : Int)
    (update_all index_only overwrite : Bool)
    (crawl : String → List String) (st : ArchiveState) :
    ArchiveState × Except PyError (List Snapshot) :=
  if depth = 0 ∨ depth = 1 then
    -- lines 564-569: save the verbatim input to sources (the write-ahead log)
    let write_ahead_log := String.intercalate "\n" urls
    let st1 := { st with sources := st.sources ++ [write_ahead_log] }
    -- line 571
    let new_snapshots := parse_snapshots_from_source urls
    -- lines 574-580: one level of crawl expansion
    let crawlStep : ArchiveState × List Snapshot :=
      if !new_snapshots.isEmpty && depth == 1 then
        new_snapshots.foldl
          (fun acc ns =>
            let downloaded := crawl ns.url
            ({ acc.1 with sources := acc.1.sources ++ [String.intercalate "\n" downloaded] },
             acc.2 ++ parse_snapshots_from_source downloaded))
          (st1, [])
      else (st1, [])
    let st2 := crawlStep.1
    let new_snapshots_depth := crawlStep.2
    -- line 582: fresh records keeping only the url
    let imported_snapshots := (new_snapshots ++ new_snapshots_depth).map
      (fun s => { url := s.url, timestamp := "" : Snapshot })
    -- line 583: deduplicate against the existing index
    let new_snapshots2 := filter_new_urls st2.index imported_snapshots
    -- lines 585-586
    let st3 := write_main_index st2 new_snapshots2
    let all_snapshots := st3.index
    if index_only then (st3, .ok all_snapshots)
    else
      -- lines 591-602: run the archive methods
      let st4 :=
        if update_all then archive_snapshots st3 all_snapshots overwrite
        else if overwrite then archive_snapshots st3 imported_snapshots true
        else if !new_snapshots2.isEmpty then archive_snapshots st3 new_snapshots2 false
        else st3
      (st4, .ok all_snapshots)
  else
    (st, .error (.assertionError "Depth must be 0 or 1 (depth >1 is not supported yet)"))

/-- `shutil.rmtree(path, ignore_errors=True)`: the folder disappears if present. -/
def rmtree (folders : List String) (dir : String) : List String :=
  folders.filter (fun f => decide (f ≠ dir))

/-- The removal loop of `remove` (main.py lines 669-673): for each matched
snapshot, its on-disk folder (keyed by its timestamp) is deleted when the
`delete` flag is set. -/
def removeLoop (delete : Bool) (matched : List Snapshot)
    (folders : List String) : List String :=
  matched.foldl (fun fs s => if delete then rmtree fs s.timestamp else fs) folders

/-- Embedding of `remove` (main.py lines 606-682). `raise SystemExit(code)` is
modelled as the `.error (.systemExit code)` outcome. On success the function
removes the matched records from the SQL main index and the search index
(`remove_from_sql_main_index` and `flush_search_index`, modelled from the spec as
Index Store and search index deletion), and returns the count the main index had
before the removal (lines 675-682). -/
def remove (filter_str : Option String) (filter_patterns0 : Option (List String))
    (filter_type : String) (snapshots : Option (List Snapshot))
    (after before : Option String) (delete : Bool) (st : ArchiveState) :
    ArchiveState × Except PyError Nat :=
  -- lines 620-640: filter-argument validation, only when no queryset is passed
  let checkedPatterns : Except PyError (Option (List String)) :=
    match snapshots with
    | some _ => .ok filter_patterns0
    | none =>
      if pyTruthyStr filter_str && pyTruthyList filter_patterns0 then
        .error (.systemExit 2)
      else if !(pyTruthyStr filter_str || pyTruthyList filter_patterns0) then
        .error (.systemExit 2)
      else if pyTruthyStr filter_str then
        .ok (some (((filter_str.getD "").splitOn "\n").map (fun p => p.trim)))
      else .ok filter_patterns0
  match checkedPatterns with
  | .error e => (st, .error e)
  | .ok filter_patterns =>
    -- lines 642-656
    let matched := list_snapshots snapshots filter_patterns (some filter_type)
      after before st.index
    -- lines 659-661
    if matched.isEmpty then (st, .error (.systemExit 1))
    else
      -- lines 667-673
      let foldersAfter := removeLoop delete matched st.folders
      -- lines 675-676: the pre-removal count of the main index
      let all_snapshots := st.index.length
      -- lines 678-679
      let st2 := { st with
        folders := foldersAfter,
        searchIndexed :=
          st.searchIndexed.filter (fun u => decide (u ∉ matched.map Snapshot.url)),
        index := st.index.filter (fun s => decide (s ∉ matched)) }
      (st2, .ok all_snapshots)

/-- The local names of `update` (main.py lines 684-749): its parameters, the
function-scoped import, and every name assigned in its body (comprehension
variables live in their own scope and are excluded). `all_snapshots` is not among
them. -/
def updateLocalNames : List String :=
  ["resume", "only_new", "index_only", "overwrite", "filter_patterns_str",
   "filter_patterns", "filter_type", "status", "after", "before", "extractors",
   "out_dir", "Snapshot", "new_links", "matching_snapshots", "matching_folders",
   "all_links", "snapshot", "to_archive", "archive_kwargs"]

/-- The local names of `init` (main.py lines 264-414): its parameters, the
function-scoped import, and every name assigned in its body (comprehension
variables live in their own scope and are excluded). `link` is not among them. -/
def initLocalNames : List String :=
  ["force", "out_dir", "Snapshot", "is_empty", "existing_index", "DATABASE_FILE",
   "migration_line", "all_snapshots", "pending_snapshots", "fixed", "cant_fix",
   "orphaned_json_snapshots", "orphaned_data_dir_snapshots", "invalid_folders",
   "json_index", "html_index", "index_name"]

/-- Every name bound at module scope of main.py: `__package__`, the imported
modules and names of lines 3-117, the `ALLOWED_IN_OUTPUT_DIR` constant, and the
functions the module defines. Neither `all_snapshots` nor `link` is among them
(nor is either a Python builtin). -/
def mainModuleNames : List String :=
  ["__package__", "os", "sys", "shutil", "platform", "Path", "date",
   "Dict", "List", "Optional", "Iterable", "IO", "Union", "CronTab", "CronSlices",
   "QuerySet", "Model",
   "list_subcommands", "run_subcommand", "display_first", "meta_cmds",
   "main_cmds", "archive_cmds",
   "save_text_as_source", "save_file_as_source", "parse_snapshots_memory",
   "Link", "enforce_types", "get_dir_size", "dedupe_cron_jobs", "CRON_COMMENT",
   "load_main_index", "parse_snapshots_from_source", "filter_new_urls",
   "write_main_index", "snapshot_filter", "get_indexed_folders",
   "get_archived_folders", "get_unarchived_folders", "get_present_folders",
   "get_valid_folders", "get_invalid_folders", "get_duplicate_folders",
   "get_orphaned_folders", "get_corrupted_folders", "get_unrecognized_folders",
   "fix_invalid_folder_locations", "write_snapshot_details",
   "parse_json_main_index", "parse_json_snapshot_details",
   "generate_json_index_from_snapshots", "get_admins", "apply_migrations",
   "remove_from_sql_main_index", "generate_index_from_snapshots",
   "snapshots_to_csv", "archive_snapshots", "archive_snapshot", "ignore_methods",
   "stderr", "hint", "ConfigDict", "ANSI", "IS_TTY", "IN_DOCKER", "USER",
   "ARCHIVEBOX_BINARY", "ONLY_NEW", "OUTPUT_DIR", "SOURCES_DIR", "ARCHIVE_DIR",
   "LOGS_DIR", "CONFIG_FILE", "ARCHIVE_DIR_NAME", "SOURCES_DIR_NAME",
   "LOGS_DIR_NAME", "STATIC_DIR_NAME", "JSON_INDEX_FILENAME",
   "HTML_INDEX_FILENAME", "SQL_INDEX_FILENAME", "ROBOTS_TXT_FILENAME",
   "FAVICON_FILENAME", "check_dependencies", "check_data_folder",
   "write_config_file", "VERSION", "CODE_LOCATIONS", "EXTERNAL_LOCATIONS",
   "DATA_LOCATIONS", "DEPENDENCIES", "load_all_config", "CONFIG", "USER_CONFIG",
   "get_real_name", "TERM_WIDTH", "TimedProgress", "log_importing_started",
   "log_crawl_started", "log_removal_started", "log_removal_finished",
   "log_list_started", "log_list_finished", "printable_config",
   "printable_folders", "printable_filesize", "printable_folder_status",
   "printable_dependency_version", "flush_search_index", "index_links",
   "ALLOWED_IN_OUTPUT_DIR", "help", "version", "run", "init", "status",
   "oneshot", "add", "remove", "update", "list_all", "list_snapshots",
   "list_folders", "config", "schedule", "server", "manage", "shell"]

/-- Embedding of `update` (main.py lines 684-749). `resume` is a Python float
restricted to whole values, rendered by `str()` as `pyFloatStr`; `C` supplies the
external classifier functions `list_folders` dispatches to. `check_data_folder`
and `check_dependencies` (lines 700-701) are external config collaborators assumed
to pass. The branch on lines 721-725 reads the name `all_snapshots`, which is
neither a local of `update` (see `updateLocalNames`) nor bound at module scope
(see `mainModuleNames`) nor a Python builtin, so reaching it raises `NameError`
before any snapshot details or search index are written. -/
def update (resume : Option Int) (only_new index_only overwrite : Bool)
    (filter_patterns : Option (List String)) (filter_type : Option String)
    (status : Option String) (after before : Option String)
    (C : Classifiers) (st : ArchiveState) :
    ArchiveState × Except PyError (List Snapshot) :=
  -- line 702
  let new_links : List Snapshot := []
  -- Step 1 (lines 706-719)
  let matching_snapshots :=
    list_snapshots none filter_patterns filter_type after before st.index
  match list_folders C matching_snapshots status with
  | .error e => (st, .error e)
  | .ok matching_folders =>
    let all_links := (matching_folders.map Prod.snd).reduceOption
    if index_only then
      (st, .error (.nameError "all_snapshots"))
    else
      -- Step 2 (lines 727-737): `link.timestamp >= str(resume)`, a string
      -- comparison, selects the batch to archive when `resume` is truthy
      let to_archive0 := if only_new then new_links else all_links
      let to_archive :=
        if pyTruthyFloat resume then
          to_archive0.filter (fun l => pyStrGe l.timestamp (pyFloatStr (resume.getD 0)))
        else to_archive0
      if pyTruthyFloat resume && to_archive.isEmpty then
        -- lines 734-737: nothing found to resume
        (st, .ok all_links)
      else
        -- line 745
        let st2 := archive_snapshots st to_archive overwrite
        -- Step 4 (lines 747-749): reload and return the main index
        (st2, .ok st2.index)

/-- The `SQL_INDEX_FILENAME` config constant (external `.config` collaborator).
Modelled from the spec: the on-disk layout of section 6 backs the Index Store with
`index.sqlite3`. -/
def SQL_INDEX_FILENAME : String := "index.sqlite3"

/-- The `ALLOWED_IN_OUTPUT_DIR` set (main.py lines 119-137), with the external
config constants it references substituted by the directory layout of the spec
(archive, sources, logs, static, index.sqlite3, index.json, index.html,
robots.txt, favicon.ico). -/
def ALLOWED_IN_OUTPUT_DIR : List String :=
  ["lost+found", ".DS_Store", ".venv", "venv", "virtualenv", ".virtualenv",
   "node_modules", "package-lock.json", "archive", "sources", "logs", "static",
   "index.sqlite3", "index.json", "index.html", "robots.txt", "favicon.ico"]

/-- Embedding of `init` (main.py lines 264-414), up to the point where every claim
about it is settled. `dirContents` is `os.listdir(out_dir)`; `jsonMainIndex` is
the snapshot list yielded by `parse_json_main_index`, the deprecated JSON main
index. External side effects between the directory gate and the collection phase
(directory creation, config write, SQL migrations, `fix_invalid_folder_locations`)
touch only collaborator-owned state and are not modelled; the collection steps
after line 357 are below the point any claim reaches. The comprehension on lines
353-357 evaluates `all_snapshots.filter(url=link.url)` once per snapshot of the
JSON main index, and the name `link` is neither a local of `init` (see
`initLocalNames`) nor bound at module scope (see `mainModuleNames`) nor a Python
builtin, so the first snapshot raises `NameError`. -/
def init (force : Bool) (dirContents : List String) (jsonMainIndex : List Snapshot)
    (st : ArchiveState) : ArchiveState × Except PyError Unit :=
  -- line 269
  let is_empty := (dirContents.filter (fun f => decide (f ∉ ALLOWED_IN_OUTPUT_DIR))).isEmpty
  -- line 275
  let existing_index := dirContents.contains SQL_INDEX_FILENAME
  -- lines 277-298: the directory-validity gate
  if !is_empty && !existing_index && !force then
    (st, .error (.systemExit 2))
  else
    -- lines 353-357
    if jsonMainIndex.isEmpty then (st, .ok ())
    else (st, .error (.nameError "link"))

/-- The expression of main.py line 464:
`num_invalid = len({**duplicate, **orphaned, **corrupted, **unrecognized})`. -/
def statusNumInvalid {α : Type} (duplicate orphaned corrupted unrecognized : PyDict α) :
    Nat :=
  (pyDictMerge (pyDictMerge (pyDictMerge (pyDictMerge [] duplicate) orphaned)
    corrupted) unrecognized).length

/-- Modelled from the spec: `get_invalid_folders` (imported from `.index`, not
under src/) reports the union of the duplicate, orphaned, corrupted and
unrecognized folder dicts. -/
def get_invalid_folders {α : Type} (duplicate orphaned corrupted unrecognized : PyDict α) :
    PyDict α :=
  pyDictMerge (pyDictMerge (pyDictMerge (pyDictMerge [] duplicate) orphaned)
    corrupted) unrecognized

/-- A pass-through instantiation of the external classifiers: each status maps
every snapshot to its folder key. Used to instantiate theorems about the
functions of main.py that dispatch to the classifiers. -/
def idClassifiers : Classifiers where
  get_indexed_folders := fun snaps => snaps.map (fun s => (s.timestamp, some s))
  get_archived_folders := fun snaps => snaps.map (fun s => (s.timestamp, some s))
  get_unarchived_folders := fun snaps => snaps.map (fun s => (s.timestamp, some s))
  get_present_folders := fun snaps => snaps.map (fun s => (s.timestamp, some s))
  get_valid_folders := fun snaps => snaps.map (fun s => (s.timestamp, some s))
  get_invalid_folders := fun snaps => snaps.map (fun s => (s.timestamp, some s))
  get_duplicate_folders := fun snaps => snaps.map (fun s => (s.timestamp, some s))
  get_orphaned_folders := fun snaps => snaps.map (fun s => (s.timestamp, some s))
  get_corrupted_folders := fun snaps => snaps.map (fun s => (s.timestamp, some s))
  get_unrecognized_folders := fun snaps => snaps.map (fun s => (s.timestamp, some s))

/-- The world of the C1 example batch: three indexed snapshots with timestamps
90, 100 and 110. -/
def resumeBatchState : ArchiveState :=
  { st0 with index := [⟨"u90", "90"⟩, ⟨"u100", "100"⟩, ⟨"u110", "110"⟩] }

/-- A world with one indexed snapshot for url `https://a`, used to instantiate the
deduplication theorem. -/
def dedupWitnessState : ArchiveState :=
  { st0 with index := [⟨"https://a", "5"⟩] }

/-- A world with two indexed snapshots and their two folders on disk, used to
instantiate the removal theorem. -/
def removeWitnessState : ArchiveState :=
  { st0 with index := [⟨"u", "1"⟩, ⟨"v", "2"⟩], folders := ["1", "2"] }

/-! Helper lemmas. -/

theorem archive_snapshots_index (st : ArchiveState) (l : List Snapshot) (ow : Bool) :
    (archive_snapshots st l ow).index = st.index := rfl

theorem reduceOption_map_some {α : Type} (l : List α) :
    (l.map some).reduceOption = l := by
  induction l with
  | nil => rfl
  | cons a as ih => simp [List.reduceOption_cons_of_some, ih]

theorem links_map_snd_reduce (snaps : List Snapshot) :
    ((snaps.map (fun s => (s.timestamp, some s))).map Prod.snd).reduceOption = snaps := by
  rw [List.map_map]
  have : (Prod.snd ∘ fun s : Snapshot => (s.timestamp, some s)) = some := rfl
  rw [this, reduceOption_map_some]

theorem pyDictKeys_pyDictInsert {α : Type} (d : PyDict α) (kv : String × α) :
    pyDictKeys (pyDictInsert d kv)
      = if kv.1 ∈ pyDictKeys d then pyDictKeys d else pyDictKeys d ++ [kv.1] := by
  by_cases h : kv.1 ∈ pyDictKeys d
  · have hany : d.any (fun p => p.1 == kv.1) = true := by
      rw [List.any_eq_true]
      rcases List.mem_map.mp h with ⟨p, hp, he⟩
      exact ⟨p, hp, by simp [he]⟩
    rw [if_pos h]
    simp only [pyDictInsert, hany, if_true, pyDictKeys, List.map_map]
    refine List.map_congr_left ?_
    intro p _
    by_cases hb : p.1 = kv.1 <;> simp [hb]
  · have hany : d.any (fun p => p.1 == kv.1) = false := by
      rw [List.any_eq_false]
      intro p hp hbe
      exact h (List.mem_map.mpr ⟨p, hp, by simpa using hbe⟩)
    rw [if_neg h]
    simp [pyDictInsert, hany, pyDictKeys]

theorem toFinset_pyDictKeys_pyDictInsert {α : Type} (d : PyDict α) (kv : String × α) :
    (pyDictKeys (pyDictInsert d kv)).toFinset = insert kv.1 (pyDictKeys d).toFinset := by
  rw [pyDictKeys_pyDictInsert]
  by_cases h : kv.1 ∈ pyDictKeys d
  · rw [if_pos h]
    exact (Finset.insert_eq_self.mpr (List.mem_toFinset.mpr h)).symm
  · rw [if_neg h]
    simp [Finset.union_comm, Finset.insert_eq]

theorem nodup_pyDictKeys_pyDictInsert {α : Type} (d : PyDict α) (kv : String × α)
    (h : (pyDictKeys d).Nodup) : (pyDictKeys (pyDictInsert d kv)).Nodup := by
  rw [pyDictKeys_pyDictInsert]
  by_cases hm : kv.1 ∈ pyDictKeys d
  · simpa [hm] using h
  · simp [hm, List.nodup_append, h, List.disjoint_singleton]

theorem toFinset_pyDictKeys_pyDictMerge {α : Type} (a b : PyDict α) :
    (pyDictKeys (pyDictMerge a b)).toFinset
      = (pyDictKeys a).toFinset ∪ (pyDictKeys b).toFinset := by
  induction b generalizing a with
  | nil => simp [pyDictMerge, pyDictKeys]
  | cons kv bs ih =>
    have hstep : pyDictMerge a (kv :: bs) = pyDictMerge (pyDictInsert a kv) bs := rfl
    rw [hstep, ih, toFinset_pyDictKeys_pyDictInsert]
    show insert kv.1 (pyDictKeys a).toFinset ∪ (pyDictKeys bs).toFinset
      = (pyDictKeys a).toFinset ∪ (pyDictKeys (kv :: bs)).toFinset
    have hcons : pyDictKeys (kv :: bs) = kv.1 :: pyDictKeys bs := rfl
    rw [hcons]
    simp [Finset.insert_union, Finset.union_insert]

theorem nodup_pyDictKeys_pyDictMerge {α : Type} (a b : PyDict α)
    (h : (pyDictKeys a).Nodup) : (pyDictKeys (pyDictMerge a b)).Nodup := by
  induction b generalizing a with
  | nil => exact h
  | cons kv bs ih => exact ih _ (nodup_pyDictKeys_pyDictInsert a kv h)

theorem removeLoop_not_delete (matched : List Snapshot) (folders : List String) :
    removeLoop false matched folders = folders := by
  induction matched generalizing folders with
  | nil => rfl
  | cons m ms ih => exact ih folders

theorem removeLoop_delete (matched : List Snapshot) (folders : List String) :
    removeLoop true matched folders
      = folders.filter (fun f => decide (f ∉ matched.map Snapshot.timestamp)) := by
  induction matched generalizing folders with
  | nil => simp [removeLoop]
  | cons m ms ih =>
    have hstep : removeLoop true (m :: ms) folders
        = removeLoop true ms (rmtree folders m.timestamp) := rfl
    rw [hstep, ih, rmtree, List.filter_filter]
    refine List.filter_congr ?_
    intro f _
    by_cases h1 : f = m.timestamp <;>
      by_cases h2 : f ∈ ms.map Snapshot.timestamp <;> simp [h1, h2]

theorem lookup_STATUS_FUNCTIONS_eq_none (C : Classifiers) (s : String)
    (h : s ∉ statusKeys) : (STATUS_FUNCTIONS C).lookup s = none := by
  have e : ∀ k ∈ statusKeys, (s == k) = false := by
    intro k hk
    exact beq_eq_false_iff_ne.mpr (fun he => h (he ▸ hk))
  simp only [STATUS_FUNCTIONS, List.lookup,
    e "indexed" (by simp [statusKeys]), e "archived" (by simp [statusKeys]),
    e "unarchived" (by simp [statusKeys]), e "present" (by simp [statusKeys]),
    e "valid" (by simp [statusKeys]), e "invalid" (by simp [statusKeys]),
    e "duplicate" (by simp [statusKeys]), e "orphaned" (by simp [statusKeys]),
    e "corrupted" (by simp [statusKeys]), e "unrecognized" (by simp [statusKeys])]

/-! Claim theorems. -/

/-- C1 counterexample: with the example batch of timestamps 90, 100 and 110 and
`resume=100`, `update` archives exactly the snapshots with timestamps 90 and 110
(the urls `u90` and `u110`), not the numerically claimed set with timestamps 100
and 110, because line 732 of main.py compares `link.timestamp >= str(resume)` as
strings. -/
theorem update_resume_numeric_counterexample :
    (update (some 100) false false false none none (some "indexed") none none
        idClassifiers resumeBatchState).1.archived = ["u90", "u110"]
    ∧ ["u90", "u110"] ≠ ["u100", "u110"] := by
  constructor
  · decide
  · decide

/-- C1 (amended): for every batch of snapshots and every truthy whole resume value
`r`, `update` with `resume=r` selects for archiving exactly those snapshots whose
`timestamp` string is lexicographically greater than or equal to `str(r)`. -/
theorem update_resume_lexicographic (r : Int) (overwrite : Bool)
    (st : ArchiveState) (hr : r ≠ 0) :
    (update (some r) false false overwrite none none (some "indexed") none none
        idClassifiers st).1.archived
      = st.archived
        ++ ((st.index.filter (fun l => pyStrGe l.timestamp (pyFloatStr r))).map
            Snapshot.url) := by
  have htr : pyTruthyFloat (some r) = true := by simp [pyTruthyFloat, hr]
  have hms : list_snapshots none none none none none st.index = st.index := rfl
  have hlf : ∀ snaps : List Snapshot,
      list_folders idClassifiers snaps (some "indexed")
        = .ok (snaps.map (fun s => (s.timestamp, some s))) := fun _ => rfl
  simp only [update, hms, hlf, links_map_snd_reduce, htr, if_false,
    Bool.false_eq_true, Option.getD_some, Bool.true_and]
  by_cases hE : (st.index.filter (fun l => pyStrGe l.timestamp (pyFloatStr r))).isEmpty
  · have hnil : st.index.filter (fun l => pyStrGe l.timestamp (pyFloatStr r)) = [] := by
      simpa [List.isEmpty_iff] using hE
    simp [hE, hnil]
  · simp [hE, archive_snapshots]

/-- C1 witness: the amended theorem applied at the example batch with `resume=100`. -/
theorem update_resume_lexicographic_witness :
    ((100 : Int) ≠ 0)
    ∧ (update (some 100) false false false none none (some "indexed") none none
        idClassifiers resumeBatchState).1.archived
      = resumeBatchState.archived
        ++ ((resumeBatchState.index.filter
              (fun l => pyStrGe l.timestamp (pyFloatStr 100))).map Snapshot.url) :=
  ⟨by decide, update_resume_lexicographic 100 false resumeBatchState (by decide)⟩

/-- C2 counterexample: `remove` called with neither a filter string, nor filter
patterns, nor a queryset does not return a structured result; it raises
`SystemExit(2)` itself (main.py lines 628-638), so the operation maps the outcome
to a process exit code instead of leaving that to the caller. -/
theorem remove_no_filter_counterexample :
    remove none none "exact" none none none false st0
      = (st0, .error (.systemExit 2)) := rfl

/-- C2 (amended): core operations may terminate the process themselves; in
particular, for every state, `remove` invoked without filter arguments and
without snapshots raises `SystemExit(2)` in place of returning a result. -/
theorem remove_no_filter_exits (filter_type : String) (after before : Option String)
    (delete : Bool) (st : ArchiveState) :
    remove none none filter_type none after before delete st
      = (st, .error (.systemExit 2)) := rfl

/-- C3: `add` called with a depth other than 0 or 1 fails at the assertion on
line 550 of main.py before any work: the returned state is untouched (no source
file written, no snapshot inserted, no extractor invoked). -/
theorem add_invalid_depth (urls : List String) (depth : Int)
    (update_all index_only overwrite : Bool) (crawl : String → List String)
    (st : ArchiveState) (h : depth ≠ 0 ∧ depth ≠ 1) :
    add urls depth update_all index_only overwrite crawl st
      = (st, .error (.assertionError
          "Depth must be 0 or 1 (depth >1 is not supported yet)")) := by
  simp [add, h.1, h.2]

/-- C3 witness: the theorem applied at depth 2 on the empty world. -/
theorem add_invalid_depth_witness :
    ((2 : Int) ≠ 0 ∧ (2 : Int) ≠ 1)
    ∧ add ["https://example.com"] 2 false false false (fun _ => []) st0
      = (st0, .error (.assertionError
          "Depth must be 0 or 1 (depth >1 is not supported yet)")) :=
  ⟨by decide,
    add_invalid_depth ["https://example.com"] 2 false false false (fun _ => []) st0
      (by decide)⟩

/-- C4: when every URL of the import is already present in the index by exact url
match, `add` with depth 0 filters all of them out (`filter_new_urls` yields the
empty list), leaves the main index unchanged, and returns the unchanged index. -/
theorem add_dedup_existing_urls (urls : List String)
    (update_all index_only overwrite : Bool) (crawl : String → List String)
    (st : ArchiveState)
    (h : ∀ s ∈ parse_snapshots_from_source urls,
      s.url ∈ st.index.map Snapshot.url) :
    filter_new_urls st.index
        ((parse_snapshots_from_source urls).map
          (fun s => { url := s.url, timestamp := "" : Snapshot })) = []
    ∧ (add urls 0 update_all index_only overwrite crawl st).1.index = st.index
    ∧ (add urls 0 update_all index_only overwrite crawl st).2 = .ok st.index := by
  have hfilter : filter_new_urls st.index
      ((parse_snapshots_from_source urls).map
        (fun s => { url := s.url, timestamp := "" : Snapshot })) = [] := by
    rw [filter_new_urls, List.filter_eq_nil_iff]
    intro a ha
    simp only [List.mem_map] at ha
    obtain ⟨s, hs, rfl⟩ := ha
    simpa using h s hs
  refine ⟨hfilter, ?_, ?_⟩ <;>
  · simp only [add, show ((0 : Int) = 0 ∨ (0 : Int) = 1) from Or.inl rfl, if_true,
      show ((0 : Int) == 1) = false from rfl, Bool.and_false, Bool.false_eq_true,
      if_false, List.append_nil, hfilter, write_main_index]
    cases index_only <;> cases update_all <;> cases overwrite <;>
      simp [archive_snapshots]

/-- C4 witness: re-importing an already indexed url leaves the index unchanged. -/
theorem add_dedup_existing_urls_witness :
    (∀ s ∈ parse_snapshots_from_source ["https://a"],
      s.url ∈ dedupWitnessState.index.map Snapshot.url)
    ∧ (filter_new_urls dedupWitnessState.index
          ((parse_snapshots_from_source ["https://a"]).map
            (fun s => { url := s.url, timestamp := "" : Snapshot })) = []
        ∧ (add ["https://a"] 0 true false false (fun _ => [])
            dedupWitnessState).1.index = dedupWitnessState.index
        ∧ (add ["https://a"] 0 true false false (fun _ => [])
            dedupWitnessState).2 = .ok dedupWitnessState.index) :=
  ⟨by decide,
    add_dedup_existing_urls ["https://a"] true false false (fun _ => [])
      dedupWitnessState (by decide)⟩

/-- C5: the folders reported invalid are exactly the union of the duplicate,
orphaned, corrupted and unrecognized sets, and the `num_invalid` count computed by
`status` from the merged dict (main.py line 464) equals the cardinality of that
union, each key counted once however many of the four dicts it appears in. -/
theorem status_invalid_union_count (d o c u : PyDict (Option Snapshot)) :
    (pyDictKeys (get_invalid_folders d o c u)).toFinset
      = (pyDictKeys d).toFinset ∪ (pyDictKeys o).toFinset
        ∪ (pyDictKeys c).toFinset ∪ (pyDictKeys u).toFinset
    ∧ statusNumInvalid d o c u
      = ((pyDictKeys d).toFinset ∪ (pyDictKeys o).toFinset
          ∪ (pyDictKeys c).toFinset ∪ (pyDictKeys u).toFinset).card := by
  have h0 : (pyDictKeys ([] : PyDict (Option Snapshot))).toFinset = ∅ := rfl
  have hkeys : (pyDictKeys (get_invalid_folders d o c u)).toFinset
      = (pyDictKeys d).toFinset ∪ (pyDictKeys o).toFinset
        ∪ (pyDictKeys c).toFinset ∪ (pyDictKeys u).toFinset := by
    rw [get_invalid_folders, toFinset_pyDictKeys_pyDictMerge,
      toFinset_pyDictKeys_pyDictMerge, toFinset_pyDictKeys_pyDictMerge,
      toFinset_pyDictKeys_pyDictMerge, h0, Finset.empty_union]
  have hnodup : (pyDictKeys (get_invalid_folders d o c u)).Nodup := by
    simp only [get_invalid_folders]
    refine nodup_pyDictKeys_pyDictMerge _ _
      (nodup_pyDictKeys_pyDictMerge _ _
        (nodup_pyDictKeys_pyDictMerge _ _
          (nodup_pyDictKeys_pyDictMerge _ _ ?_)))
    simp [pyDictKeys]
  have hlen : statusNumInvalid d o c u
      = (pyDictKeys (get_invalid_folders d o c u)).length := by
    simp [statusNumInvalid, get_invalid_folders, pyDictKeys]
  exact ⟨hkeys, by rw [hlen, ← List.toFinset_card_of_nodup hnodup, hkeys]⟩

/-- C6: for every nonempty matched set, `remove` deletes the on-disk folder of a
matched snapshot exactly when the `delete` flag is set, and removes the matched
records from the SQL main index in both cases. -/
theorem remove_delete_iff (matched : List Snapshot) (delete : Bool)
    (st : ArchiveState) (h : matched ≠ []) :
    (∀ f : String,
        f ∈ (remove none none "exact" (some matched) none none delete st).1.folders
          ↔ f ∈ st.folders ∧ (delete = true → f ∉ matched.map Snapshot.timestamp))
    ∧ (∀ s : Snapshot,
        s ∈ (remove none none "exact" (some matched) none none delete st).1.index
          ↔ s ∈ st.index ∧ s ∉ matched) := by
  have hne : matched.isEmpty = false := by simpa [List.isEmpty_iff] using h
  have hls : list_snapshots (some matched) none (some "exact") none none st.index
      = matched := by
    simp [list_snapshots, pyTruthyList, hne]
  simp only [remove, hls, hne, Bool.false_eq_true, if_false]
  constructor
  · intro f
    cases delete
    · simp [removeLoop_not_delete]
    · simp [removeLoop_delete, List.mem_filter]
  · intro s
    simp [List.mem_filter]

/-- C6 witness: the theorem applied to one matched snapshot with its folder on
disk, checked for both values of the delete flag via the folder key `1`. -/
theorem remove_delete_iff_witness :
    (([(⟨"u", "1"⟩ : Snapshot)] ≠ ([] : List Snapshot))
      ∧ ([(⟨"u", "1"⟩ : Snapshot)] ≠ ([] : List Snapshot)))
    ∧ (("1" ∈ (remove none none "exact" (some [⟨"u", "1"⟩]) none none true
            removeWitnessState).1.folders
          ↔ "1" ∈ removeWitnessState.folders
            ∧ (true = true →
                "1" ∉ ([(⟨"u", "1"⟩ : Snapshot)]).map Snapshot.timestamp))
        ∧ ((⟨"u", "1"⟩ : Snapshot)
              ∈ (remove none none "exact" (some [⟨"u", "1"⟩]) none none false
                removeWitnessState).1.index
            ↔ (⟨"u", "1"⟩ : Snapshot) ∈ removeWitnessState.index
              ∧ (⟨"u", "1"⟩ : Snapshot) ∉ [(⟨"u", "1"⟩ : Snapshot)])) :=
  ⟨⟨by decide, by decide⟩,
    ⟨(remove_delete_iff [⟨"u", "1"⟩] true removeWitnessState (by decide)).1 "1",
      (remove_delete_iff [⟨"u", "1"⟩] false removeWitnessState
        (by decide)).2 ⟨"u", "1"⟩⟩⟩

/-- C7: `list_folders` dispatches each of the ten recognized status strings to the
corresponding classifier function, and raises `ValueError` with message
`Status not recognized.` for every other status string, without calling any
classifier. -/
theorem list_folders_dispatch (C : Classifiers) (snaps : List Snapshot) :
    (list_folders C snaps (some "indexed") = .ok (C.get_indexed_folders snaps))
    ∧ (list_folders C snaps (some "archived") = .ok (C.get_archived_folders snaps))
    ∧ (list_folders C snaps (some "unarchived")
        = .ok (C.get_unarchived_folders snaps))
    ∧ (list_folders C snaps (some "present") = .ok (C.get_present_folders snaps))
    ∧ (list_folders C snaps (some "valid") = .ok (C.get_valid_folders snaps))
    ∧ (list_folders C snaps (some "invalid") = .ok (C.get_invalid_folders snaps))
    ∧ (list_folders C snaps (some "duplicate")
        = .ok (C.get_duplicate_folders snaps))
    ∧ (list_folders C snaps (some "orphaned") = .ok (C.get_orphaned_folders snaps))
    ∧ (list_folders C snaps (some "corrupted")
        = .ok (C.get_corrupted_folders snaps))
    ∧ (list_folders C snaps (some "unrecognized")
        = .ok (C.get_unrecognized_folders snaps))
    ∧ ∀ s : String, s ∉ statusKeys →
        list_folders C snaps (some s)
          = .error (.valueError "Status not recognized.") := by
  refine ⟨rfl, rfl, rfl, rfl, rfl, rfl, rfl, rfl, rfl, rfl, ?_⟩
  intro s hs
  simp [list_folders, lookup_STATUS_FUNCTIONS_eq_none C s hs]

/-- C7 witness: the dispatch theorem applied to the pass-through classifiers and
the unrecognized status string `bogus`. -/
theorem list_folders_dispatch_witness :
    ("bogus" ∉ statusKeys)
    ∧ list_folders idClassifiers [] (some "bogus")
        = .error (.valueError "Status not recognized.") :=
  ⟨by decide,
    (list_folders_dispatch idClassifiers []).2.2.2.2.2.2.2.2.2.2 "bogus" (by decide)⟩

/-- C8: `list_snapshots` with `after=T` keeps exactly the snapshots whose
timestamp is strictly below `T`, and with `before=T` exactly those strictly above
`T`: the filter directions are inverted relative to the parameter names
(main.py lines 821-824). -/
theorem list_snapshots_after_before_inverted (mainIndex : List Snapshot)
    (T : String) (s : Snapshot) :
    (s ∈ list_snapshots none none (some "exact") (some T) none mainIndex
      ↔ s ∈ mainIndex ∧ pyStrLt s.timestamp T = true)
    ∧ (s ∈ list_snapshots none none (some "exact") none (some T) mainIndex
      ↔ s ∈ mainIndex ∧ pyStrLt T s.timestamp = true) := by
  constructor <;> simp [list_snapshots, pyTruthyList, List.mem_filter]

/-- C9 counterexample: `update` invoked with `index_only=true` and the default
`status=None` raises `ValueError` (from the `list_folders` dispatch on line 714
of main.py, reached before the index-only branch), not `NameError`. -/
theorem update_index_only_default_status :
    update none false true false none none none none none idClassifiers st0
      = (st0, .error (.valueError "Status not recognized.")) := rfl

/-- C9 (amended): for every input whose status is one of the ten recognized
status strings, `update` with `index_only=true` raises `NameError` before writing
any snapshot details or search index, because lines 721-725 of main.py read the
name `all_snapshots`, which is bound neither among the locals of `update` nor at
module scope; the returned state is the input state, untouched. -/
theorem update_index_only_name_error (resume : Option Int)
    (only_new overwrite : Bool) (filter_patterns : Option (List String))
    (filter_type : Option String) (after before : Option String)
    (C : Classifiers) (st : ArchiveState) (s : String) (h : s ∈ statusKeys) :
    (updateLocalNames.contains "all_snapshots"
        || mainModuleNames.contains "all_snapshots") = false
    ∧ update resume only_new true overwrite filter_patterns filter_type (some s)
        after before C st = (st, .error (.nameError "all_snapshots")) := by
  refine ⟨by decide, ?_⟩
  fin_cases h <;> rfl

/-- C9 witness: the amended theorem applied at the recognized status `indexed`. -/
theorem update_index_only_name_error_witness :
    "indexed" ∈ statusKeys
    ∧ ((updateLocalNames.contains "all_snapshots"
          || mainModuleNames.contains "all_snapshots") = false
        ∧ update none false true false none none (some "indexed") none none
            idClassifiers st0 = (st0, .error (.nameError "all_snapshots"))) :=
  ⟨by decide,
    update_index_only_name_error none false false none none none none
      idClassifiers st0 "indexed" (by decide)⟩

/-- C10 counterexample: a data directory whose deprecated JSON main index holds a
snapshot, but which also holds a file outside `ALLOWED_IN_OUTPUT_DIR` and no
`index.sqlite3`: `init` without `force` exits with `SystemExit(2)` at the
directory gate (main.py line 298), before the orphaned-JSON collection, so no
`NameError` is raised. -/
theorem init_gate_before_name_error :
    init false ["index.json", "some-notes.txt"] [⟨"https://example.com", "1"⟩] st0
      = (st0, .error (.systemExit 2)) := rfl

/-- C10 (amended): for every data directory that passes the directory gate of
`init` (its contents are all allowed, or an `index.sqlite3` exists, or `force` is
set) and whose deprecated JSON main index yields at least one snapshot, `init`
raises `NameError` while collecting orphaned JSON snapshots, because the
membership test on line 356 of main.py reads the name `link`, which is bound
neither among the locals of `init` nor at module scope. -/
theorem init_orphaned_json_name_error (force : Bool) (dirContents : List String)
    (jsonMainIndex : List Snapshot) (st : ArchiveState)
    (hjson : jsonMainIndex ≠ [])
    (hgate : ((dirContents.filter
          (fun f => decide (f ∉ ALLOWED_IN_OUTPUT_DIR))).isEmpty
        || dirContents.contains SQL_INDEX_FILENAME || force) = true) :
    (initLocalNames.contains "link" || mainModuleNames.contains "link") = false
    ∧ init force dirContents jsonMainIndex st = (st, .error (.nameError "link")) := by
  refine ⟨by decide, ?_⟩
  have hj : jsonMainIndex.isEmpty = false := by simpa [List.isEmpty_iff] using hjson
  revert hgate
  cases hA : (dirContents.filter (fun f => decide (f ∉ ALLOWED_IN_OUTPUT_DIR))).isEmpty <;>
    cases hB : dirContents.contains SQL_INDEX_FILENAME <;> cases force <;>
      intro hgate <;> simp_all [init]

/-- C10 witness: the amended theorem applied to a directory containing only the
deprecated JSON index file, with one snapshot in it. -/
theorem init_orphaned_json_name_error_witness :
    (([(⟨"https://example.com", "1"⟩ : Snapshot)] ≠ ([] : List Snapshot))
      ∧ (((["index.json"].filter
            (fun f => decide (f ∉ ALLOWED_IN_OUTPUT_DIR))).isEmpty
          || ["index.json"].contains SQL_INDEX_FILENAME || false) = true))
    ∧ ((initLocalNames.contains "link" || mainModuleNames.contains "link") = false
        ∧ init false ["index.json"] [⟨"https://example.com", "1"⟩] st0
          = (st0, .error (.nameError "link"))) :=
  ⟨⟨by decide, by decide⟩,
    init_orphaned_json_name_error false ["index.json"]
      [⟨"https://example.com", "1"⟩] st0 (by decide) (by decide)⟩

end ArchiveBoxMain
